import Mathlib

/-!
Shallow embedding of the rule-based matching engine of UCR HousingConnect
(`app/matching.py`): a small backtracking regular-expression engine modelling
the `re` patterns the extractor uses, the preference extractor, the listing
scorer, the ranker and the response composer, together with theorems settling
the specification claims.

Python numbers (int and float mixed freely by the source) are embedded as `ℚ`;
fallible operations (comparisons against `None`, division by zero, string
formatting of `None`) are embedded as `Except String`.
-/

set_option allowUnsafeReducibility true in
attribute [semireducible] Rat.mul Rat.add Rat.sub Rat.inv Rat.ofScientific

namespace UCRHousing

/-! ### Python-style string helpers -/

/-- Python's `str.lower()` (ASCII letters suffice for the engine's inputs). -/
def pyLower (s : String) : String := String.mk (s.toList.map Char.toLower)

/-- Does `needle` occur as a contiguous block of `hay`? -/
def subOccurs (needle : List Char) : List Char → Bool
  | [] => needle.isEmpty
  | c :: rest => needle.isPrefixOf (c :: rest) || subOccurs needle rest

/-- Python's substring test `sub in s`. -/
def pyIn (sub s : String) : Bool := subOccurs sub.toList s.toList

/-- Python's `\s` character class (the whitespace the engine meets). -/
def pySpace (c : Char) : Bool :=
  c = ' ' || c = '\t' || c = '\n' || c = '\r' || c = '\x0b' || c = '\x0c'

/-- Word character for `\b` semantics (`\w` = alphanumeric or underscore). -/
def wordChar (c : Char) : Bool := c.isAlphanum || c = '_'

/-- Helper for `pySplitWs`: `cur` holds the reversed current token. -/
def wsSplitAux : List Char → List Char → List String
  | cur, [] => if cur.isEmpty then [] else [String.mk cur.reverse]
  | cur, c :: rest =>
    if pySpace c then
      if cur.isEmpty then wsSplitAux [] rest
      else String.mk cur.reverse :: wsSplitAux [] rest
    else wsSplitAux (c :: cur) rest

/-- Python's `str.split()` with no argument: split on whitespace runs,
dropping empty pieces. -/
def pySplitWs (s : String) : List String := wsSplitAux [] s.toList

/-- Helper for `pySplitChar`: `cur` holds the reversed current piece. -/
def charSplitAux (sep : Char) : List Char → List Char → List String
  | cur, [] => [String.mk cur.reverse]
  | cur, c :: rest =>
    if c = sep then String.mk cur.reverse :: charSplitAux sep [] rest
    else charSplitAux sep (c :: cur) rest

/-- Python's `str.split(sep)` for a one-character separator (keeps empty
pieces, always returns at least one piece). -/
def pySplitChar (sep : Char) (s : String) : List String :=
  charSplitAux sep [] s.toList

/-- Split a character list at a separator (for parsing `12.5`). -/
def listSplitAux (sep : Char) : List Char → List Char → List (List Char)
  | cur, [] => [cur.reverse]
  | cur, c :: rest =>
    if c = sep then cur.reverse :: listSplitAux sep [] rest
    else listSplitAux sep (c :: cur) rest

/-- Split a character list at every occurrence of `sep`. -/
def listSplit (sep : Char) (cs : List Char) : List (List Char) :=
  listSplitAux sep [] cs

/-- Python's `str.isalpha()` (nonempty and all alphabetic). -/
def pyIsAlpha (s : String) : Bool := !s.isEmpty && s.toList.all Char.isAlpha

/-! ### A small regular-expression engine

Just the constructs appearing in `extract_preferences`: literals, one-char
classes, greedy `*`/`+` over a class, `?`, ordered alternation, sequencing,
capture groups and the word boundary `\b`. Matching returns candidate
outcomes in Python's backtracking priority order (greedy quantifiers,
left-to-right alternation), so taking the head of the list agrees with `re`. -/

inductive Re where
  | lit (s : List Char)
  | cls (p : Char → Bool)
  | star (p : Char → Bool)
  | opt (r : Re)
  | alt (a b : Re)
  | seq (a b : Re)
  | grp (r : Re)
  | wb

/-- The last character of `cs`, or `prev` when `cs` is empty: the character
standing immediately to the left after consuming `cs`. -/
def lastCharOf (cs : List Char) (prev : Option Char) : Option Char :=
  match cs.getLast? with
  | some c => some c
  | none => prev

/-- Is there a word boundary between `prev` and the head of `s`? -/
def atBoundary (prev : Option Char) (s : List Char) : Bool :=
  let left := match prev with | some c => wordChar c | none => false
  let right := match s with | c :: _ => wordChar c | [] => false
  left != right

/-- Drop `pre` from the front of `s` if it is a prefix. -/
def stripPre : List Char → List Char → Option (List Char)
  | [], s => some s
  | _ :: _, [] => none
  | p :: ps, c :: cs => if p = c then stripPre ps cs else none

/-- All ways for a greedy `cls*` to consume a prefix of `s`, longest first.
Each outcome is (last char consumed or `prev`, remaining input). -/
def starSplits (p : Char → Bool) (prev : Option Char) : List Char →
    List (Option Char × List Char)
  | [] => [(prev, [])]
  | c :: rest =>
    if p c then starSplits p (some c) rest ++ [(prev, c :: rest)]
    else [(prev, c :: rest)]

/-- Backtracking matcher. Given the character to the left (`prev`) and the
input, returns every way the expression can match a prefix, in priority
order, as (new left char, remaining input, captured groups in order). -/
def mrun : Re → Option Char → List Char →
    List (Option Char × List Char × List (List Char))
  | Re.lit cs, prev, s =>
    match stripPre cs s with
    | some rest => [(lastCharOf cs prev, rest, [])]
    | none => []
  | Re.cls p, _, s =>
    match s with
    | c :: rest => if p c then [(some c, rest, [])] else []
    | [] => []
  | Re.star p, prev, s =>
    (starSplits p prev s).map (fun pr => (pr.1, pr.2, []))
  | Re.opt r, prev, s => mrun r prev s ++ [(prev, s, [])]
  | Re.alt a b, prev, s => mrun a prev s ++ mrun b prev s
  | Re.seq a b, prev, s =>
    (mrun a prev s).flatMap (fun o =>
      (mrun b o.1 o.2.1).map (fun o2 => (o2.1, o2.2.1, o.2.2 ++ o2.2.2)))
  | Re.grp r, prev, s =>
    (mrun r prev s).map (fun o =>
      (o.1, o.2.1, (s.take (s.length - o.2.1.length)) :: o.2.2))
  | Re.wb, prev, s => if atBoundary prev s then [(prev, s, [])] else []

/-- `re.findall` scan: try to match at each position left to right; after a
match continue right after it (advancing one character on an empty match).
Returns the capture-group lists of the matches, in order. `fuel` bounds the
scan (`length + 1` always suffices). -/
def findallAux (r : Re) : Nat → Option Char → List Char → List (List (List Char))
  | 0, _, _ => []
  | _ + 1, prev, [] =>
    match mrun r prev [] with
    | o :: _ => [o.2.2]
    | [] => []
  | fuel + 1, prev, c :: rest =>
    match mrun r prev (c :: rest) with
    | o :: _ =>
      let consumed := (c :: rest).length - o.2.1.length
      if consumed = 0 then o.2.2 :: findallAux r fuel (some c) rest
      else o.2.2 :: findallAux r fuel o.1 o.2.1
    | [] => findallAux r fuel (some c) rest

/-- `re.findall(pattern, s)`: per-match lists of captured groups. -/
def reFindall (r : Re) (s : String) : List (List (List Char)) :=
  findallAux r (s.toList.length + 1) none s.toList

/-- Truthiness of `re.search(pattern, s)`: does the pattern match anywhere? -/
def reSearch (r : Re) (s : String) : Bool := !(reFindall r s).isEmpty

/-- Group `i` of the first match (`matches[0]`, then the tuple component). -/
def firstGroup (ms : List (List (List Char))) (i : Nat) : List Char :=
  (ms.headD []).getD i []

/-! ### Pattern combinators and the concrete patterns of the extractor -/

def reLit (s : String) : Re := Re.lit s.toList

/-- `\d+` -/
def reDigits : Re := Re.seq (Re.cls Char.isDigit) (Re.star Char.isDigit)

/-- `\s*` -/
def reSp : Re := Re.star pySpace

/-- `\s+` -/
def reSp1 : Re := Re.seq (Re.cls pySpace) (Re.star pySpace)

/-- Ordered alternation of a list (left to right, like `a|b|c`). -/
def reAltL : List Re → Re
  | [] => Re.cls (fun _ => false)
  | [r] => r
  | r :: rs => Re.alt r (reAltL rs)

/-- Sequence of a list of pieces. -/
def reSeqL : List Re → Re
  | [] => Re.lit []
  | [r] => r
  | r :: rs => Re.seq r (reSeqL rs)

/-- `(\d+)` -/
def numGroup : Re := Re.grp reDigits

/-- `(\d+(?:\.\d+)?)` -/
def decGroup : Re :=
  Re.grp (Re.seq reDigits (Re.opt (Re.seq (reLit ".") reDigits)))

/-- `(\d+(?:,\d+)?)` -/
def commaNumGroup : Re :=
  Re.grp (Re.seq reDigits (Re.opt (Re.seq (reLit ",") reDigits)))

/-- `(?:bedroom|bed room|bed|br)` -/
def bedroomUnit : Re :=
  reAltL [reLit "bedroom", reLit "bed room", reLit "bed", reLit "br"]

/-- `(\d+)\s*(?:bedroom|bed room|bed|br)\b` -/
def bedroomExactRe : Re := reSeqL [numGroup, reSp, bedroomUnit, Re.wb]

/-- `(\d+)\s*-\s*(\d+)\s*(?:bedroom|bed room|bed|br)` -/
def bedroomRangeRe : Re :=
  reSeqL [numGroup, reSp, reLit "-", reSp, numGroup, reSp, bedroomUnit]

/-- `studio\s+apartment|studio\s+apt|studio` -/
def studioRe : Re :=
  reAltL [reSeqL [reLit "studio", reSp1, reLit "apartment"],
          reSeqL [reLit "studio", reSp1, reLit "apt"],
          reLit "studio"]

/-- `(?:bathroom|bath room|bath|ba)` -/
def bathUnit : Re :=
  reAltL [reLit "bathroom", reLit "bath room", reLit "bath", reLit "ba"]

/-- `(\d+(?:\.\d+)?)\s*(?:bathroom|bath room|bath|ba)\b` -/
def bathroomExactRe : Re := reSeqL [decGroup, reSp, bathUnit, Re.wb]

/-- `(\d+(?:\.\d+)?)\s*-\s*(\d+(?:\.\d+)?)\s*(?:bathroom|bath room|bath|ba)` -/
def bathroomRangeRe : Re :=
  reSeqL [decGroup, reSp, reLit "-", reSp, decGroup, reSp, bathUnit]

/-- `(?:under|less than|below|max|maximum)\s*\$?(\d+(?:,\d+)?)` -/
def priceMaxRe : Re :=
  reSeqL [reAltL [reLit "under", reLit "less than", reLit "below",
                  reLit "max", reLit "maximum"],
          reSp, Re.opt (reLit "$"), commaNumGroup]

/-- `(?:over|more than|above|min|minimum)\s*\$?(\d+(?:,\d+)?)` -/
def priceMinRe : Re :=
  reSeqL [reAltL [reLit "over", reLit "more than", reLit "above",
                  reLit "min", reLit "minimum"],
          reSp, Re.opt (reLit "$"), commaNumGroup]

/-- `\$?(\d+(?:,\d+)?)\s*(?:to|-)\s*\$?(\d+(?:,\d+)?)` -/
def priceRangeRe : Re :=
  reSeqL [Re.opt (reLit "$"), commaNumGroup, reSp,
          Re.alt (reLit "to") (reLit "-"), reSp,
          Re.opt (reLit "$"), commaNumGroup]

/-- `\$(\d+(?:,\d+)?)` -/
def priceExactRe : Re := Re.seq (reLit "$") commaNumGroup

/-- `\b<keyword>\b` (the keywords contain no regex metacharacters). -/
def wordRe (kw : String) : Re := reSeqL [Re.wb, reLit kw, Re.wb]

/-! ### Number parsing -/

/-- Value of a digit character. -/
def digitVal (c : Char) : Nat := c.toNat - '0'.toNat

/-- Decimal value of a digit string. -/
def digitsNat (cs : List Char) : Nat :=
  cs.foldl (fun n c => n * 10 + digitVal c) 0

/-- `int(s)` on a captured digit string. -/
def pyIntOfDigits (cs : List Char) : ℤ := (digitsNat cs : ℤ)

/-- `int(s.replace(',', ''))` for prices such as `1,500`. -/
def pyPrice (cs : List Char) : ℚ :=
  ((digitsNat (cs.filter (fun c => c ≠ ','))) : ℚ)

/-- `float(s)` on a captured `\d+(\.\d+)?` string. -/
def pyFloatOfChars (cs : List Char) : ℚ :=
  match listSplit '.' cs with
  | [w] => (digitsNat w : ℚ)
  | [w, f] => (digitsNat w : ℚ) + (digitsNat f : ℚ) / ((10 : ℚ) ^ f.length)
  | _ => 0

/-! ### The matcher's NLP backend

The spec treats the tokenizer, the stop-word set and the stemmer as pluggable
services chosen once at construction (NLTK resources with a dependency-free
fallback). They are embedded as an explicit configuration record; the claims
below never depend on a particular stemmer. -/

structure MatcherCfg where
  tokenize : String → List String
  stop_words : List String
  stem : String → String

/-- `BASIC_STOP_WORDS`, the built-in fallback stop-word set of the module. -/
def BASIC_STOP_WORDS : List String :=
  ["i", "me", "my", "myself", "we", "our", "ours", "ourselves",
   "you", "your", "yours", "yourself", "yourselves", "he", "him",
   "his", "himself", "she", "her", "hers", "herself", "it", "its",
   "itself", "they", "them", "their", "theirs", "themselves",
   "what", "which", "who", "whom", "this", "that", "these", "those",
   "am", "is", "are", "was", "were", "be", "been", "being", "have",
   "has", "had", "having", "do", "does", "did", "doing", "a", "an",
   "the", "and", "but", "if", "or", "because", "as", "until", "while",
   "of", "at", "by", "for", "with", "about", "against", "between",
   "into", "through", "during", "before", "after", "above", "below",
   "to", "from", "up", "down", "in", "out", "on", "off", "over",
   "under", "again", "further", "then", "once", "here", "there",
   "when", "where", "why", "how", "all", "any", "both", "each",
   "few", "more", "most", "other", "some", "such", "no", "nor",
   "not", "only", "own", "same", "so", "than", "too", "very",
   "s", "t", "can", "will", "just", "don", "should", "now"]

/-- The dependency-free fallback backend (whitespace tokenizer and
`BASIC_STOP_WORDS`); the stemmer service is instantiated with the identity,
which none of the verified claims depends on. -/
def fallbackMatcher : MatcherCfg :=
  { tokenize := pySplitWs, stop_words := BASIC_STOP_WORDS, stem := id }

/-- `ListingMatcher.preprocess_text`: lowercase, tokenize, drop stop words and
non-alphabetic tokens, stem the survivors. -/
def preprocess_text (cfg : MatcherCfg) (text : String) : List String :=
  let t := pyLower text
  let tokens := cfg.tokenize t
  let tokens := tokens.filter
    (fun tok => !(cfg.stop_words.contains tok) && pyIsAlpha tok)
  tokens.map cfg.stem

/-! ### The preference record and the extractor -/

/-- The preference dictionary built by `extract_preferences`. Bedroom counts
are Python ints, bathroom counts Python floats, prices int-or-float (all
rationals here). -/
structure Prefs where
  bedrooms : Option ℤ := none
  min_bedrooms : Option ℤ := none
  max_bedrooms : Option ℤ := none
  bathrooms : Option ℚ := none
  min_bathrooms : Option ℚ := none
  max_bathrooms : Option ℚ := none
  min_price : Option ℚ := none
  max_price : Option ℚ := none
  property_type : Option String := none
  amenities : List String := []
  near_ucr : Bool := false
  keywords : List String := []
deriving Repr, DecidableEq

/-- The `property_types` table, in declared order. -/
def property_types : List (String × List String) :=
  [("apartment", ["apartment", "apt", "flat", "condo", "condominium"]),
   ("house", ["house", "home", "townhouse", "town house", "bungalow", "cottage"]),
   ("room", ["room", "bedroom", "shared", "dorm"])]

/-- The `amenity_keywords` table, in declared order. -/
def amenity_keywords : List (String × List String) :=
  [("parking", ["parking", "garage", "covered parking", "parking spot", "car", "vehicle"]),
   ("pet-friendly", ["pet", "dog", "cat", "animal", "pet-friendly", "pet friendly"]),
   ("laundry", ["laundry", "washer", "dryer", "w/d", "washer/dryer", "washer and dryer", "washing machine"]),
   ("furnished", ["furnished", "furniture", "equipped"]),
   ("air-conditioning", ["ac", "a/c", "air conditioning", "air-conditioning", "cooling"]),
   ("heating", ["heating", "heater", "heated", "central heat"]),
   ("pool", ["pool", "swimming pool", "swim"]),
   ("gym", ["gym", "fitness", "workout", "exercise"]),
   ("balcony", ["balcony", "patio", "terrace", "outdoor space", "deck"]),
   ("security", ["security", "gated", "doorman", "secure", "surveillance", "cameras"]),
   ("utilities-included", ["utilities included", "utilities", "bills included", "water included", "electricity included"]),
   ("internet", ["internet", "wifi", "broadband", "high-speed internet"])]

/-- The `ucr_keywords` list (plain substring tests, not word-bounded). -/
def ucr_keywords : List String :=
  ["ucr", "campus", "university", "riverside", "college", "school",
   "near ucr", "close to ucr", "walking distance"]

/-- `ListingMatcher.extract_preferences`: ordered pattern lists per category,
first hit wins within a category (the `for`/`break` loops of the source). -/
def extract_preferences (cfg : MatcherCfg) (query : String) : Prefs :=
  let q := pyLower query
  -- bedrooms: exact, then range, then studio
  let bedExact := reFindall bedroomExactRe q
  let bedRange := reFindall bedroomRangeRe q
  let bedStudio := reFindall studioRe q
  let bed :=
    if !bedExact.isEmpty then
      (some (pyIntOfDigits (firstGroup bedExact 0)), (none : Option ℤ), (none : Option ℤ))
    else if !bedRange.isEmpty then
      (none, some (pyIntOfDigits (firstGroup bedRange 0)),
       some (pyIntOfDigits (firstGroup bedRange 1)))
    else if !bedStudio.isEmpty then (some 0, none, none)
    else (none, none, none)
  -- bathrooms: exact, then range
  let bathExact := reFindall bathroomExactRe q
  let bathRange := reFindall bathroomRangeRe q
  let bath :=
    if !bathExact.isEmpty then
      (some (pyFloatOfChars (firstGroup bathExact 0)), (none : Option ℚ), (none : Option ℚ))
    else if !bathRange.isEmpty then
      (none, some (pyFloatOfChars (firstGroup bathRange 0)),
       some (pyFloatOfChars (firstGroup bathRange 1)))
    else (none, none, none)
  -- price: max phrases, min phrases, range, then bare $N expanded to a ±10% band
  let pMax := reFindall priceMaxRe q
  let pMin := reFindall priceMinRe q
  let pRange := reFindall priceRangeRe q
  let pExact := reFindall priceExactRe q
  let price :=
    if !pMax.isEmpty then ((none : Option ℚ), some (pyPrice (firstGroup pMax 0)))
    else if !pMin.isEmpty then (some (pyPrice (firstGroup pMin 0)), none)
    else if !pRange.isEmpty then
      (some (pyPrice (firstGroup pRange 0)), some (pyPrice (firstGroup pRange 1)))
    else if !pExact.isEmpty then
      -- 0.9 and 1.1 below stand for the source's float literals
      let exact_price := pyPrice (firstGroup pExact 0)
      (some (exact_price * (9 / 10 : ℚ)), some (exact_price * (11 / 10 : ℚ)))
    else (none, none)
  -- property type: first category with a whole-word keyword hit, declared order
  let property_type := property_types.findSome?
    (fun pr => if pr.2.any (fun k => reSearch (wordRe k) q) then some pr.1 else none)
  -- amenities: every tag with a whole-word keyword hit, declared order
  let amenities := amenity_keywords.filterMap
    (fun pr => if pr.2.any (fun k => reSearch (wordRe k) q) then some pr.1 else none)
  -- proximity flag: plain substring containment
  let near_ucr := ucr_keywords.any (fun k => pyIn k q)
  { bedrooms := bed.1, min_bedrooms := bed.2.1, max_bedrooms := bed.2.2,
    bathrooms := bath.1, min_bathrooms := bath.2.1, max_bathrooms := bath.2.2,
    min_price := price.1, max_price := price.2,
    property_type := property_type, amenities := amenities,
    near_ucr := near_ucr, keywords := preprocess_text cfg q }

/-! ### Listing records and scoring

A listing is an external dictionary read through `listing.get(...)`; every
field may be absent. Numeric values are rationals (Python int/float). -/

structure Listing where
  is_multi_unit : Bool := false
  bedrooms : Option ℚ := none
  min_bedrooms : Option ℚ := none
  max_bedrooms : Option ℚ := none
  bathrooms : Option ℚ := none
  min_bathrooms : Option ℚ := none
  max_bathrooms : Option ℚ := none
  price : Option ℚ := none
  property_type : Option String := none
  amenities : Option (List String) := none
  latitude : Option ℚ := none
  longitude : Option ℚ := none
  title : Option String := none
  description : Option String := none
deriving Repr, DecidableEq

/-- Python's `TypeError` for an order comparison against `None`
(`listing.get(...)` with no default can return `None`). -/
def noneCmpErr : String :=
  "TypeError: '<=' not supported between instances of 'NoneType' and number"

/-- Python's `ZeroDivisionError`. -/
def zeroDivErr : String := "ZeroDivisionError: division by zero"

/-- `a <= x` where `a` may be `None` (raises `TypeError` if it is). -/
def pyLeON (a : Option ℚ) (x : ℚ) : Except String Bool :=
  match a with
  | some v => Except.ok (decide (v ≤ x))
  | none => Except.error noneCmpErr

/-- `x <= b` where `b` may be `None` (raises `TypeError` if it is). -/
def pyLeNO (x : ℚ) (b : Option ℚ) : Except String Bool :=
  match b with
  | some v => Except.ok (decide (x ≤ v))
  | none => Except.error noneCmpErr

/-- `a >= x` where `a` may be `None` (raises `TypeError` if it is). -/
def pyGeON (a : Option ℚ) (x : ℚ) : Except String Bool :=
  match a with
  | some v => Except.ok (decide (x ≤ v))
  | none => Except.error noneCmpErr

/-- Python's chained `a <= x <= b` with short-circuiting: the right-hand
comparison is only evaluated when the left-hand one holds. -/
def pyChainLe (a : Option ℚ) (x : ℚ) (b : Option ℚ) : Except String Bool := do
  let left ← pyLeON a x
  if left then pyLeNO x b else pure false

/-- Python's `o == x` where `o` may be `None` (`None == x` is `False`). -/
def pyOptEq (o : Option ℚ) (x : ℚ) : Bool :=
  match o with
  | some v => decide (v = x)
  | none => false

/-- Python's `a / b` (raises on a zero divisor). -/
def pyDiv (a b : ℚ) : Except String ℚ :=
  if b = 0 then Except.error zeroDivErr else Except.ok (a / b)

/-- Python's `int(x)`: truncation toward zero. -/
def pyTrunc (x : ℚ) : ℤ := if 0 ≤ x then ⌊x⌋ else -⌊-x⌋

/-- Truthiness of an optional number (`None` and `0.0` are falsy). -/
def pyTruthy (o : Option ℚ) : Bool :=
  match o with
  | some v => decide (v ≠ 0)
  | none => false

/-- Rendering of a number inside an f-string (decimal points of Python floats
are approximated by a fraction when the value is not integral). -/
def pyNumStr (q : ℚ) : String :=
  if q.den = 1 then toString q.num else toString q.num ++ "/" ++ toString q.den

/-- Bedroom block of `calculate_listing_score` (the `score` delta and the
explanation entries it appends). -/
def bedroomsBlock (listing : Listing) (p : Prefs) : Except String (ℚ × List String) :=
  match p.bedrooms with
  | some b =>
    if listing.is_multi_unit then do
      -- the range-membership test reads min/max with no default: None raises
      let hit ← pyChainLe listing.min_bedrooms (b : ℚ) listing.max_bedrooms
      if hit then
        pure (10, ["Has the desired " ++ toString b ++ " bedrooms"])
      else
        let diff := min |listing.min_bedrooms.getD 0 - (b : ℚ)|
                        |listing.max_bedrooms.getD 0 - (b : ℚ)|
        if diff ≤ 1 then pure (5, ["Close to desired bedroom count (within 1)"])
        else pure (-(diff * 2), [])
    else
      if pyOptEq listing.bedrooms (b : ℚ) then
        pure (10, ["Exactly " ++ toString b ++ " bedrooms as requested"])
      else
        let diff := |listing.bedrooms.getD 0 - (b : ℚ)|
        if diff ≤ 1 then pure (5, ["Close to desired bedroom count (within 1)"])
        else pure (-(diff * 2), [])
  | none =>
    match p.min_bedrooms, p.max_bedrooms with
    | some lo, some hi =>
      if listing.is_multi_unit then do
        -- overlap test, again reading min/max with no default
        let left ← pyLeON listing.min_bedrooms (hi : ℚ)
        let overlap ← if left then pyGeON listing.max_bedrooms (lo : ℚ) else pure false
        if overlap then pure (8, ["Bedroom options within desired range"])
        else pure (-5, [])
      else
        if (lo : ℚ) ≤ listing.bedrooms.getD 0 ∧ listing.bedrooms.getD 0 ≤ (hi : ℚ) then
          pure (8, ["Bedrooms within desired range"])
        else pure (-5, [])
    | _, _ => pure (0, [])

/-- Bathroom block of `calculate_listing_score` (same shape as bedrooms with
weights 8/4 and overlap 6/−4, closeness threshold 0.5). -/
def bathroomsBlock (listing : Listing) (p : Prefs) : Except String (ℚ × List String) :=
  match p.bathrooms with
  | some b =>
    if listing.is_multi_unit then do
      let hit ← pyChainLe listing.min_bathrooms b listing.max_bathrooms
      if hit then
        pure (8, ["Has the desired " ++ pyNumStr b ++ " bathrooms"])
      else
        let diff := min |listing.min_bathrooms.getD 0 - b|
                        |listing.max_bathrooms.getD 0 - b|
        if diff ≤ 1 / 2 then pure (4, ["Close to desired bathroom count"])
        else pure (-(diff * 2), [])
    else
      if pyOptEq listing.bathrooms b then
        pure (8, ["Exactly " ++ pyNumStr b ++ " bathrooms as requested"])
      else
        let diff := |listing.bathrooms.getD 0 - b|
        if diff ≤ 1 / 2 then pure (4, ["Close to desired bathroom count"])
        else pure (-(diff * 2), [])
  | none =>
    match p.min_bathrooms, p.max_bathrooms with
    | some lo, some hi =>
      if listing.is_multi_unit then do
        let left ← pyLeON listing.min_bathrooms hi
        let overlap ← if left then pyGeON listing.max_bathrooms lo else pure false
        if overlap then pure (6, ["Bathroom options within desired range"])
        else pure (-4, [])
      else
        if lo ≤ listing.bathrooms.getD 0 ∧ listing.bathrooms.getD 0 ≤ hi then
          pure (6, ["Bathrooms within desired range"])
        else pure (-4, [])
    | _, _ => pure (0, [])

/-- Price block of `calculate_listing_score`. `listing.get('price', 0)`. -/
def priceBlock (listing : Listing) (p : Prefs) : Except String (ℚ × List String) :=
  let listing_price := listing.price.getD 0
  match p.min_price, p.max_price with
  | some lo, some hi =>
    if lo ≤ listing_price ∧ listing_price ≤ hi then
      pure (15, ["Price within your budget range"])
    else if listing_price < lo then
      pure (5, ["Price below your minimum budget (good value)"])
    else if listing_price ≤ hi * (11 / 10 : ℚ) then
      pure (3, ["Price slightly over your maximum budget"])
    else do
      let over ← pyDiv (listing_price - hi) hi
      pure (-((pyTrunc (over * 20) : ℤ) : ℚ), [])
  | none, some hi =>
    if listing_price ≤ hi then do
      let budget_ratio ← pyDiv listing_price hi
      if budget_ratio ≤ 8 / 10 then
        pure (15, ["Significantly under your maximum budget"])
      else pure (15, ["Within your maximum budget"])
    else if listing_price ≤ hi * (11 / 10 : ℚ) then
      pure (2, ["Slightly over your maximum budget"])
    else do
      let over ← pyDiv (listing_price - hi) hi
      pure (-((pyTrunc (over * 25) : ℤ) : ℚ), [])
  | some lo, none =>
    if lo ≤ listing_price then
      pure (5, ["Meets your minimum price requirement"])
    else pure (0, [])
  | none, none => pure (0, [])

/-- Property-type block: exact match after lowering the listing's type. -/
def propertyTypeBlock (listing : Listing) (p : Prefs) : ℚ × List String :=
  match p.property_type with
  | some pt =>
    if pyLower (listing.property_type.getD "") = pt then
      (8, ["Matches your preferred " ++ pt ++ " property type"])
    else (0, [])
  | none => (0, [])

/-- Does a desired amenity tag match one lowered listing amenity string?
(`desired in listing_amenity or any(k in listing_amenity for k in
desired.split('-'))`). -/
def amenityTagMatches (tag : String) (listing_amenity : String) : Bool :=
  pyIn tag listing_amenity ||
    (pySplitChar '-' tag).any (fun k => pyIn k listing_amenity)

/-- Python's `', '.join(xs[:-1]) + ' and ' + xs[-1]` used for lists of two or
more entries. -/
def joinAnd (xs : List String) : String :=
  String.intercalate ", " (xs.dropLast) ++ " and " ++ xs.getLastD ""

/-- Amenity block: +5 for each desired tag found among the lowered listing
amenities; never a penalty. -/
def amenitiesBlock (listing : Listing) (p : Prefs) : ℚ × List String :=
  if p.amenities.isEmpty then (0, [])
  else
    let listing_amenities := (listing.amenities.getD []).map pyLower
    let matched := p.amenities.filter
      (fun t => listing_amenities.any (amenityTagMatches t))
    let sc : ℚ := 5 * (matched.length : ℚ)
    let expl :=
      if matched.isEmpty then []
      else if matched.length = 1 then
        ["Has your desired " ++ matched.headD "" ++ " amenity"]
      else
        ["Includes your desired " ++ joinAnd matched ++ " amenities"]
    (sc, expl)

/-- Proximity block: only when the flag is set and both coordinates are
truthy. The source compares `sqrt(dlat² + dlng²) * 69` against 1, 2 and 5
miles; squares of both sides are compared here, which is equivalent because
both sides are nonnegative. -/
def proximityBlock (listing : Listing) (p : Prefs) : ℚ × List String :=
  if p.near_ucr && pyTruthy listing.latitude && pyTruthy listing.longitude then
    let ucr_lat : ℚ := 339737 / 10000
    let ucr_lng : ℚ := -1173281 / 10000
    let distSq := (listing.latitude.getD 0 - ucr_lat) ^ 2 +
                  (listing.longitude.getD 0 - ucr_lng) ^ 2
    let milesSq := distSq * (69 * 69)
    if milesSq < 1 then (15, ["Very close to UCR (less than 1 mile)"])
    else if milesSq < 4 then (10, ["Close to UCR (less than 2 miles)"])
    else if milesSq < 25 then (5, ["Within 5 miles of UCR"])
    else (0, [])
  else (0, [])

/-- Keyword block: 2 points per distinct preference keyword found among the
normalized tokens of description and title. -/
def keywordsBlock (cfg : MatcherCfg) (listing : Listing) (p : Prefs) : ℚ × List String :=
  if p.keywords.isEmpty then (0, [])
  else
    let listing_description := pyLower (listing.description.getD "")
    let listing_title := pyLower (listing.title.getD "")
    let listing_tokens := preprocess_text cfg (listing_description ++ " " ++ listing_title)
    let matching := (p.keywords.eraseDups).filter
      (fun t => listing_tokens.contains t)
    let n := matching.length
    let expl :=
      if 3 ≤ n then ["Many of your keywords match the description"]
      else if 0 < n then ["Some of your keywords match the description"]
      else []
    (2 * (n : ℚ), expl)

/-- The scorer's result dictionary. -/
structure ScoreResult where
  score : ℚ
  explanation : List String
deriving Repr, DecidableEq

/-- `ListingMatcher.calculate_listing_score`: the seven scoring rules run in
order, accumulating the score and appending explanations; a Python exception
in an earlier rule aborts the call. -/
def calculate_listing_score (cfg : MatcherCfg) (listing : Listing) (preferences : Prefs) :
    Except String ScoreResult := do
  let (s1, e1) ← bedroomsBlock listing preferences
  let (s2, e2) ← bathroomsBlock listing preferences
  let (s3, e3) ← priceBlock listing preferences
  let (s4, e4) := propertyTypeBlock listing preferences
  let (s5, e5) := amenitiesBlock listing preferences
  let (s6, e6) := proximityBlock listing preferences
  let (s7, e7) := keywordsBlock cfg listing preferences
  pure { score := s1 + s2 + s3 + s4 + s5 + s6 + s7,
         explanation := e1 ++ e2 ++ e3 ++ e4 ++ e5 ++ e6 ++ e7 }

/-! ### Ranking -/

/-- The scored-listing dictionary appended by `find_matches`. -/
structure ScoredMatch where
  listing : Listing
  score : ℚ
  explanation : List String
deriving Repr, DecidableEq

/-- Descending order on scores, the sort key of
`scored_listings.sort(key=lambda x: x['score'], reverse=True)`. -/
def scoreGe (a b : ScoredMatch) : Prop := b.score ≤ a.score

instance : DecidableRel scoreGe :=
  fun a b => inferInstanceAs (Decidable (b.score ≤ a.score))

instance : IsTotal ScoredMatch scoreGe := ⟨fun a b => le_total b.score a.score⟩

instance : IsTrans ScoredMatch scoreGe := ⟨fun _ _ _ h1 h2 => le_trans h2 h1⟩

/-- Score every listing in input order (the `for` loop of `find_matches`);
the first Python exception aborts the call. -/
def scoreListings (cfg : MatcherCfg) (preferences : Prefs) :
    List Listing → Except String (List ScoredMatch)
  | [] => Except.ok []
  | l :: rest =>
    match calculate_listing_score cfg l preferences with
    | Except.error e => Except.error e
    | Except.ok r =>
      match scoreListings cfg preferences rest with
      | Except.error e => Except.error e
      | Except.ok tail =>
        Except.ok ({ listing := l, score := r.score,
                     explanation := r.explanation } :: tail)

/-- Python's slice `l[:n]`: for a negative `n` it keeps all but the final
`|n|` elements (never an error). -/
def pySlice (n : Int) (l : List α) : List α :=
  l.take (if 0 ≤ n then n.toNat else l.length - n.natAbs)

/-- The length `pySlice n` leaves of a list of length `len`. -/
def pySliceLen (n : Int) (len : Nat) : Nat :=
  min (if 0 ≤ n then n.toNat else len - n.natAbs) len

/-- `ListingMatcher.find_matches`: extract once, score every listing, sort by
descending score (Python's sort is stable; `List.insertionSort` with
`scoreGe` is the same stable descending sort), return the `[:top_n]` slice. -/
def find_matches (cfg : MatcherCfg) (query : String) (listings : List Listing)
    (top_n : Int) : Except String (List ScoredMatch) :=
  match scoreListings cfg (extract_preferences cfg query) listings with
  | Except.error e => Except.error e
  | Except.ok scored =>
    Except.ok (pySlice top_n (List.insertionSort scoreGe scored))

/-! ### Response composition -/

/-- Python's `TypeError` when `None` meets the `:,` format specifier. -/
def fmtNoneErr : String :=
  "TypeError: unsupported format string passed to NoneType.__format__"

/-- `f"{o}"` for an optional string (`None` prints as `None`). -/
def pyOptStrRepr (o : Option String) : String := o.getD "None"

/-- `f"{o}"` for an optional number. -/
def pyOptNumRepr (o : Option ℚ) : String :=
  match o with
  | some q => pyNumStr q
  | none => "None"

/-- Insert thousands separators into a reversed digit list. -/
def groupRev : List Char → List Char
  | a :: b :: c :: d :: rest => a :: b :: c :: ',' :: groupRev (d :: rest)
  | l => l

/-- Digit character for a value below ten. -/
def digitChar (d : Nat) : Char := Char.ofNat ('0'.toNat + d)

/-- Fractional decimal digits of `num / den` (with `num < den`), bounded by
`fuel`; Python floats always have a finite printed expansion. -/
def fracDigits : Nat → Nat → Nat → List Char
  | 0, _, _ => []
  | fuel + 1, num, den =>
    if num = 0 then []
    else digitChar (num * 10 / den) :: fracDigits fuel (num * 10 % den) den

/-- Python's `f"{q:,}"` thousands-separated rendering. -/
def pyCommaNum (q : ℚ) : String :=
  let sign := if q < 0 then "-" else ""
  let n := q.num.natAbs
  let wholeDigits := (toString (n / q.den)).toList
  let whole := String.mk ((groupRev wholeDigits.reverse).reverse)
  if q.den = 1 then sign ++ whole
  else sign ++ whole ++ "." ++ String.mk (fracDigits 20 (n % q.den) q.den)

/-- One numbered entry of the response per match (the body of the `for` loop
of `generate_response`); formatting a missing price raises. -/
def matchLines (i : Nat) : List ScoredMatch → Except String String
  | [] => Except.ok ""
  | m :: rest => do
    let priceStr ←
      match m.listing.price with
      | some pr => Except.ok (pyCommaNum pr)
      | none => Except.error fmtNoneErr
    let head := "**" ++ toString i ++ ". " ++ pyOptStrRepr m.listing.title ++
      "** - $" ++ priceStr ++ " per month\n" ++
      "   " ++ pyOptNumRepr m.listing.bedrooms ++ " bed, " ++
      pyOptNumRepr m.listing.bathrooms ++ " bath " ++
      pyOptStrRepr m.listing.property_type ++ "\n"
    let ams := m.listing.amenities.getD []
    let amLine :=
      if ams.isEmpty then ""
      else
        "   Amenities: " ++ String.intercalate ", " (ams.take 3) ++
        (if 3 < ams.length then " and " ++ toString (ams.length - 3) ++ " more"
         else "") ++ "\n"
    let expl := m.explanation
    let whyLine :=
      if expl.isEmpty then ""
      else
        "   Why this matches: " ++
        (if expl.length ≤ 2 then String.intercalate ", " expl
         else
           String.intercalate ", " (expl.take 3) ++
           (if 3 < expl.length then
              " and " ++ toString (expl.length - 3) ++ " other factors"
            else "")) ++ "\n"
    let tail ← matchLines (i + 1) rest
    pure (head ++ amLine ++ whyLine ++ "\n" ++ tail)

/-- `ListingMatcher.generate_response`: the fixed guidance string on an empty
match list, otherwise a context clause re-derived from the query followed by
the numbered matches and a closing line. (The source's parameter `matches` is
a reserved word here, hence `ms`.) -/
def generate_response (cfg : MatcherCfg) (query : String)
    (ms : List ScoredMatch) : Except String String :=
  if ms.isEmpty then
    Except.ok "I couldn't find any listings matching your criteria. Please try a different search or adjust your requirements."
  else do
    let preferences := extract_preferences cfg query
    let context_parts :=
      (match preferences.bedrooms with
       | some b => [toString b ++ "-bedroom"]
       | none =>
         match preferences.min_bedrooms, preferences.max_bedrooms with
         | some lo, some hi => [toString lo ++ "-" ++ toString hi ++ " bedroom"]
         | _, _ => []) ++
      (match preferences.property_type with
       | some pt => [pt]
       | none => [])
    let response := "Based on your search" ++
      (if context_parts.isEmpty then ""
       else " for a " ++ String.intercalate " " context_parts)
    let response := response ++
      (if pyTruthy preferences.max_price then
         " with a budget of $" ++ pyCommaNum (preferences.max_price.getD 0)
       else "")
    let response := response ++
      (match preferences.amenities with
       | [] => ""
       | [a] => " with " ++ a
       | more => " with " ++ joinAnd more)
    let response := response ++ (if preferences.near_ucr then " near UCR" else "")
    let response := response ++ ", here are the best matches I found:\n\n"
    let body ← matchLines 1 ms
    pure (response ++ body ++
      "Click on any listing to view more details or adjust your search criteria for different results.")

/-- Amenity matching as the specification words it: a desired tag matches
when the whole tag, or some hyphen-delimited component of it, is a substring
of some listing amenity lowered for case-insensitivity. Stated separately
from the scorer so the two can be compared. -/
def specAmenityMatch (tag : String) (amenityList : List String) : Prop :=
  ∃ a ∈ amenityList,
    pyIn tag (pyLower a) = true ∨
    ∃ k ∈ pySplitChar '-' tag, pyIn k (pyLower a) = true

instance (tag : String) (amenityList : List String) :
    Decidable (specAmenityMatch tag amenityList) := by
  unfold specAmenityMatch
  infer_instance

/-- Does a scored match carry exactly the score `s`? (Used to state sort
stability: the sort preserves the relative order of equal-score entries.) -/
def scoreIs (s : ℚ) : ScoredMatch → Bool := fun m => decide (m.score = s)

/-! ## Claim theorems -/

/-- Filtering the equal-score entries out of an ordered insertion: the
inserted element lands in front of the equal-score entries already present
(every entry it passes has a strictly larger score). -/
theorem filter_scoreIs_orderedInsert (s : ℚ) (a : ScoredMatch) (l : List ScoredMatch) :
    (List.orderedInsert scoreGe a l).filter (scoreIs s) =
      if scoreIs s a then a :: l.filter (scoreIs s) else l.filter (scoreIs s) := by
  induction l with
  | nil => by_cases ha : scoreIs s a <;> simp [List.orderedInsert, ha]
  | cons b t ih =>
    rw [List.orderedInsert]
    by_cases hab : scoreGe a b
    · rw [if_pos hab]
      by_cases ha : scoreIs s a <;> simp [ha]
    · rw [if_neg hab]
      by_cases ha : scoreIs s a
      · have ha' : a.score = s := by simpa [scoreIs] using ha
        have hlt : a.score < b.score := not_le.mp hab
        have hb : scoreIs s b = false := by
          simp only [scoreIs, decide_eq_false_iff_not]
          intro hbs
          rw [hbs, ha'] at hlt
          exact lt_irrefl s hlt
        simp [List.filter_cons, hb, ih, ha]
      · by_cases hb : scoreIs s b <;> simp [List.filter_cons, hb, ih, ha]

/-- The stable descending sort of the ranker does not change the subsequence
of entries having any fixed score. -/
theorem filter_scoreIs_insertionSort (s : ℚ) (l : List ScoredMatch) :
    (List.insertionSort scoreGe l).filter (scoreIs s) = l.filter (scoreIs s) := by
  induction l with
  | nil => rfl
  | cons a t ih =>
    rw [List.insertionSort, filter_scoreIs_orderedInsert, ih]
    by_cases ha : scoreIs s a <;> simp [List.filter_cons, ha]

/-- Inversion of a successful `find_matches` call: the listings were scored in
input order and the result is the slice of their stable descending sort. -/
theorem find_matches_ok (cfg : MatcherCfg) (q : String) (ls : List Listing)
    (n : Int) (res : List ScoredMatch)
    (h : find_matches cfg q ls n = Except.ok res) :
    ∃ scored, scoreListings cfg (extract_preferences cfg q) ls = Except.ok scored ∧
      res = pySlice n (List.insertionSort scoreGe scored) := by
  unfold find_matches at h
  cases e : scoreListings cfg (extract_preferences cfg q) ls with
  | error msg => rw [e] at h; simp at h
  | ok scored =>
    rw [e] at h
    simp at h
    exact ⟨scored, rfl, h.symm⟩

/-- A successful scoring pass produces one scored entry per listing. -/
theorem scoreListings_length (cfg : MatcherCfg) (p : Prefs) :
    ∀ (ls : List Listing) (scored : List ScoredMatch),
      scoreListings cfg p ls = Except.ok scored → scored.length = ls.length := by
  intro ls
  induction ls with
  | nil =>
    intro scored h
    simp [scoreListings] at h
    simp [← h]
  | cons l rest ih =>
    intro scored h
    unfold scoreListings at h
    cases hc : calculate_listing_score cfg l p with
    | error e => rw [hc] at h; simp at h
    | ok r =>
      rw [hc] at h
      cases hr : scoreListings cfg p rest with
      | error e => rw [hr] at h; simp at h
      | ok tail =>
        rw [hr] at h
        simp at h
        rw [← h]
        simp [ih tail hr]

/-- Claim C6 (confirmed). Whenever `find_matches` returns, the returned
sequence is sorted by descending score, and the entries of any fixed score
form a prefix of the equal-score entries of the input-order scored list: two
listings with identical scores keep their relative input order. -/
theorem claim_C6_stable_ranking (cfg : MatcherCfg) (q : String) (ls : List Listing)
    (n : Int) (res : List ScoredMatch)
    (h : find_matches cfg q ls n = Except.ok res) :
    res.Pairwise scoreGe ∧
    ∀ scored, scoreListings cfg (extract_preferences cfg q) ls = Except.ok scored →
      ∀ s : ℚ, res.filter (scoreIs s) <+: scored.filter (scoreIs s) := by
  obtain ⟨scored, he, hres⟩ := find_matches_ok cfg q ls n res h
  constructor
  · have hs : (List.insertionSort scoreGe scored).Pairwise scoreGe :=
      List.sorted_insertionSort scoreGe scored
    rw [hres]
    exact List.Pairwise.sublist (List.take_sublist _ _) hs
  · intro scored' he' s
    rw [he] at he'
    have hsc : scored' = scored := by
      injection he' with h2
      exact h2.symm
    rw [hsc, hres]
    have h1 : pySlice n (List.insertionSort scoreGe scored) <+:
        List.insertionSort scoreGe scored := List.take_prefix _ _
    obtain ⟨t, ht⟩ := h1
    have h2 := congrArg (List.filter (scoreIs s)) ht
    rw [List.filter_append] at h2
    rw [← filter_scoreIs_insertionSort s scored]
    exact ⟨_, h2⟩

/-- Claim C6, witness: two listings with equal scores keep their input order
in the ranked output. -/
theorem claim_C6_witness :
    ([{ listing := { price := some 1000, title := some "A" }, score := 15,
        explanation := ["Price within your budget range"] },
      { listing := { price := some 1000, title := some "B" }, score := 15,
        explanation := ["Price within your budget range"] }] : List ScoredMatch).Pairwise scoreGe ∧
    ∀ scored, scoreListings fallbackMatcher (extract_preferences fallbackMatcher "$1000")
        [{ price := some 1000, title := some "A" },
         { price := some 1000, title := some "B" }] = Except.ok scored →
      ∀ s : ℚ,
        ([{ listing := { price := some 1000, title := some "A" }, score := 15,
            explanation := ["Price within your budget range"] },
          { listing := { price := some 1000, title := some "B" }, score := 15,
            explanation := ["Price within your budget range"] }] : List ScoredMatch).filter (scoreIs s) <+:
          scored.filter (scoreIs s) :=
  claim_C6_stable_ranking fallbackMatcher "$1000"
    [{ price := some 1000, title := some "A" },
     { price := some 1000, title := some "B" }] 5 _ rfl

/-- Claim C3 (corrected). `find_matches` performs no `top_n` validation: a
negative `top_n` is handed to the slice, which drops the last `|top_n|`
entries and never signals an invalid argument; and scorer errors do propagate
to the caller (here: a multi-unit listing missing its bedroom range fields). -/
theorem claim_C3_no_topn_validation :
    (∀ (cfg : MatcherCfg) (q : String) (ls : List Listing) (n : Int)
        (res : List ScoredMatch),
        find_matches cfg q ls n = Except.ok res →
        res.length = pySliceLen n ls.length) ∧
    find_matches fallbackMatcher "2 bedroom" [{ is_multi_unit := true }] 5 =
      Except.error noneCmpErr := by
  constructor
  · intro cfg q ls n res h
    obtain ⟨scored, he, hres⟩ := find_matches_ok cfg q ls n res h
    have hlen : scored.length = ls.length :=
      scoreListings_length cfg (extract_preferences cfg q) ls scored he
    rw [hres]
    unfold pySlice
    rw [List.length_take, List.length_insertionSort, hlen]
    rfl
  · rfl

/-- Claim C3, counterexample to the claim as stated: `top_n = -1` does not
fail fast with an invalid-argument signal; the call returns normally. -/
theorem claim_C3_negative_topn_returns :
    find_matches fallbackMatcher "" [] (-1) = Except.ok [] := rfl

/-- Claim C3, witness: with two listings and `top_n = -1` the slice keeps one
entry and no error is raised. -/
theorem claim_C3_witness :
    ([{ listing := { title := some "A" }, score := 0, explanation := [] }] :
        List ScoredMatch).length =
      pySliceLen (-1) ([{ title := some "A" }, { title := some "B" }] :
        List Listing).length :=
  claim_C3_no_topn_validation.1 fallbackMatcher ""
    [{ title := some "A" }, { title := some "B" }] (-1) _ rfl

/-- Claim C8 (confirmed). A desired amenity tag matches exactly when the tag,
or a hyphen-delimited component of it, is a substring of some lowered listing
amenity; each matched tag adds a flat +5, unmatched tags are never penalized,
and in particular "pet-friendly" matches the amenity "Pet Friendly
Community". -/
theorem claim_C8_amenity_match :
    (∀ (l : Listing) (p : Prefs),
        (amenitiesBlock l p).1 =
          5 * ((p.amenities.countP fun t =>
            decide (specAmenityMatch t (l.amenities.getD []))) : ℚ) ∧
        0 ≤ (amenitiesBlock l p).1) ∧
    specAmenityMatch "pet-friendly" ["Pet Friendly Community"] := by
  constructor
  · intro l p
    have key : (amenitiesBlock l p).1 =
        5 * ((p.amenities.countP fun t =>
          decide (specAmenityMatch t (l.amenities.getD []))) : ℚ) := by
      unfold amenitiesBlock
      by_cases he : p.amenities.isEmpty
      · have hnil : p.amenities = [] := List.isEmpty_iff.mp he
        simp [he, hnil]
      · simp only [he, if_false, Bool.false_eq_true]
        have hcount : (p.amenities.filter
            (fun t => ((l.amenities.getD []).map pyLower).any (amenityTagMatches t))).length =
            p.amenities.countP fun t =>
              decide (specAmenityMatch t (l.amenities.getD [])) := by
          rw [List.countP_eq_length_filter]
          congr 1
          apply List.filter_congr
          intro t _
          rw [Bool.eq_iff_iff]
          simp [amenityTagMatches, specAmenityMatch, List.any_map, Function.comp]
        rw [← hcount]
    refine ⟨key, ?_⟩
    rw [key]
    have : (0 : ℚ) ≤ ((p.amenities.countP fun t =>
        decide (specAmenityMatch t (l.amenities.getD []))) : ℚ) := Nat.cast_nonneg _
    linarith
  · decide

/-- Claim C10 (confirmed). The coordinate-presence check tests truthiness, so
a latitude or longitude equal to 0.0 disables the proximity rule even when
`near_ucr` is set and both fields are present: the proximity block
contributes nothing and the total score is as if `near_ucr` were false. -/
theorem claim_C10_zero_coordinate (cfg : MatcherCfg) (l : Listing) (p : Prefs)
    (h : l.latitude = some 0 ∨ l.longitude = some 0) :
    proximityBlock l p = (0, []) ∧
    calculate_listing_score cfg l p =
      calculate_listing_score cfg l { p with near_ucr := false } := by
  have hcond : ∀ b : Bool,
      (b && pyTruthy l.latitude && pyTruthy l.longitude) = false := by
    intro b
    rcases h with h | h <;> rw [h] <;> simp [pyTruthy]
  have h1 : proximityBlock l p = (0, []) := by
    unfold proximityBlock
    rw [hcond]
    simp
  have h2 : proximityBlock l { p with near_ucr := false } = (0, []) := by
    unfold proximityBlock
    rw [hcond]
    simp
  have e1 : bedroomsBlock l { p with near_ucr := false } = bedroomsBlock l p := rfl
  have e2 : bathroomsBlock l { p with near_ucr := false } = bathroomsBlock l p := rfl
  have e3 : priceBlock l { p with near_ucr := false } = priceBlock l p := rfl
  have e4 : propertyTypeBlock l { p with near_ucr := false } = propertyTypeBlock l p := rfl
  have e5 : amenitiesBlock l { p with near_ucr := false } = amenitiesBlock l p := rfl
  have e7 : keywordsBlock cfg l { p with near_ucr := false } = keywordsBlock cfg l p := rfl
  refine ⟨h1, ?_⟩
  unfold calculate_listing_score
  simp only [e1, e2, e3, e4, e5, e7, h1, h2]

/-- Claim C10, witness: a listing with latitude exactly 0.0 and a present
longitude gets no proximity contribution despite `near_ucr = true`. -/
theorem claim_C10_witness :
    proximityBlock { latitude := some 0, longitude := some 5 } { near_ucr := true } = (0, []) ∧
    calculate_listing_score fallbackMatcher { latitude := some 0, longitude := some 5 }
        { near_ucr := true } =
      calculate_listing_score fallbackMatcher { latitude := some 0, longitude := some 5 }
        { ({ near_ucr := true } : Prefs) with near_ucr := false } :=
  claim_C10_zero_coordinate fallbackMatcher
    { latitude := some 0, longitude := some 5 } { near_ucr := true } (Or.inl rfl)

/-- Claim C1 (corrected). The bedroom pattern list tries the exact pattern
first and stops at the first hit, and for the query "2-4 bedroom" the exact
pattern matches "4 bedroom": the extractor sets `bedrooms = 4` and leaves the
range unset, and the multi-unit listing with range [1, 3] receives +5 (one
away from a boundary), not +8. The range min=2, max=4 is extracted for the
plural query "2-4 bedrooms" (which the exact pattern cannot match because of
its trailing word boundary), and there the [1, 3] listing does receive +8 for
the overlap of [1, 3] and [2, 4]. -/
theorem claim_C1_exact_beats_range :
    (extract_preferences fallbackMatcher "2-4 bedroom").bedrooms = some 4 ∧
    (extract_preferences fallbackMatcher "2-4 bedroom").min_bedrooms = none ∧
    (extract_preferences fallbackMatcher "2-4 bedroom").max_bedrooms = none ∧
    bedroomsBlock { is_multi_unit := true, min_bedrooms := some 1, max_bedrooms := some 3 }
        (extract_preferences fallbackMatcher "2-4 bedroom") =
      Except.ok (5, ["Close to desired bedroom count (within 1)"]) ∧
    (extract_preferences fallbackMatcher "2-4 bedrooms").min_bedrooms = some 2 ∧
    (extract_preferences fallbackMatcher "2-4 bedrooms").max_bedrooms = some 4 ∧
    bedroomsBlock { is_multi_unit := true, min_bedrooms := some 1, max_bedrooms := some 3 }
        (extract_preferences fallbackMatcher "2-4 bedrooms") =
      Except.ok (8, ["Bedroom options within desired range"]) :=
  ⟨rfl, rfl, rfl, rfl, rfl, rfl, rfl⟩

/-- Claim C1, counterexample to the claim as stated: the query "2-4 bedroom"
does not produce the bedroom range min=2, max=4. -/
theorem claim_C1_range_not_extracted :
    ¬ ((extract_preferences fallbackMatcher "2-4 bedroom").min_bedrooms = some 2 ∧
       (extract_preferences fallbackMatcher "2-4 bedroom").max_bedrooms = some 4) := by
  decide

/-- Claim C2 (code bug). The scorer reads `min_bedrooms`/`max_bedrooms` with
no default inside the multi-unit range-membership test, so a multi-unit
listing missing those fields, scored against an exact bedroom preference,
raises Python's `TypeError` instead of being scored with the documented
zero defaults. -/
theorem claim_C2_missing_range_fields_raise :
    calculate_listing_score fallbackMatcher { is_multi_unit := true }
      { bedrooms := some 2 } = Except.error noneCmpErr ∧
    calculate_listing_score fallbackMatcher { is_multi_unit := true }
      { bathrooms := some 2 } = Except.error noneCmpErr :=
  ⟨rfl, rfl⟩

/-- Claim C4 (corrected). The property-type and amenity keyword searches are
word-bounded — "ac" inside "jackson" sets nothing — but the price trigger
words are not: "under" inside "thunder" and "max" inside "climax" do set
`max_price`. -/
theorem claim_C4_word_boundaries :
    (extract_preferences fallbackMatcher "thunder 500").max_price = some 500 ∧
    (extract_preferences fallbackMatcher "climax 800").max_price = some 800 ∧
    (extract_preferences fallbackMatcher "jackson").amenities = [] ∧
    (extract_preferences fallbackMatcher "jackson").property_type = none :=
  ⟨rfl, rfl, rfl, rfl⟩

/-- Claim C4, counterexample to the claim as stated: in "thunder 500" the
trigger word "under" occurs only inside the longer word "thunder", yet
`max_price` is set rather than left unset. -/
theorem claim_C4_price_trigger_inside_word :
    ¬ ((extract_preferences fallbackMatcher "thunder 500").max_price = none) := by
  decide

/-- Claim C5 (corrected). The score is a rational, not always an integer:
with a desired bathroom count of 1.25 and a single-unit listing with 2
bathrooms, the bathroom distance penalty `2 × 0.75` makes the total score
−3/2. -/
theorem claim_C5_bathroom_penalty_fractional :
    calculate_listing_score fallbackMatcher { bathrooms := some 2 }
      { bathrooms := some (5 / 4 : ℚ) } =
    Except.ok { score := -(3 / 2 : ℚ), explanation := [] } :=
  rfl

/-- Claim C5, counterexample to the claim as stated: at the claim's own
example input the returned score is −3/2, whose denominator is 2, so the
total score is not an integer value. -/
theorem claim_C5_score_not_integral :
    (calculate_listing_score fallbackMatcher { bathrooms := some 2 }
        { bathrooms := some (5 / 4 : ℚ) }).map ScoreResult.score =
      Except.ok (-(3 / 2) : ℚ) ∧
    (-(3 / 2) : ℚ).den ≠ 1 :=
  ⟨rfl, by decide⟩

/-- Claim C7 (confirmed). For the query "$1000" the extractor synthesizes the
±10% band: `min_price = 900` and `max_price = 1100`. -/
theorem claim_C7_price_band :
    (extract_preferences fallbackMatcher "$1000").min_price = some 900 ∧
    (extract_preferences fallbackMatcher "$1000").max_price = some 1100 :=
  ⟨rfl, rfl⟩

/-- Claim C9 (confirmed). With an empty listing set `find_matches` returns the
empty sequence for every nonnegative `top_n`, and `generate_response` on an
empty match list returns the fixed guidance string, for every backend. -/
theorem claim_C9_empty_input :
    (∀ (cfg : MatcherCfg) (n : Int), 0 ≤ n →
      find_matches cfg "" [] n = Except.ok []) ∧
    (∀ cfg : MatcherCfg, generate_response cfg "" [] =
      Except.ok "I couldn't find any listings matching your criteria. Please try a different search or adjust your requirements.") := by
  constructor
  · intro cfg n _
    simp [find_matches, scoreListings, pySlice]
  · intro cfg
    rfl

/-- Claim C9, witness: the theorem applied at the fallback backend and
`top_n = 0`. -/
theorem claim_C9_witness :
    find_matches fallbackMatcher "" [] 0 = Except.ok [] ∧
    generate_response fallbackMatcher "" [] =
      Except.ok "I couldn't find any listings matching your criteria. Please try a different search or adjust your requirements." :=
  ⟨claim_C9_empty_input.1 fallbackMatcher 0 (by decide),
   claim_C9_empty_input.2 fallbackMatcher⟩

end UCRHousing
